import Mathlib

/-!
Verification of the `cadquerywrapper` printability-validation library.

This file shallowly embeds the library's core (`validator.py` and
`save_validator.py`) in Lean:

* Python values that can occur in a model dict or a rules dict are the
  inductive type `PyVal`; Python dicts are association lists in insertion
  order (Python dict iteration order) with unique keys.
* Python numbers are exact: `int` carries an `Int`, `float` carries a `ℚ`
  (floating point is idealised as exact rational arithmetic; every value
  appearing in a rule file is a short decimal, exactly representable).
* Fallible Python code returns `Except`: `Except Unit _` for helpers where
  only "an exception was raised" matters, `Except PyErr _` where the
  distinction `ValidationError` / other exception is observable.
* Duck-typed CAD objects are the structure `CadObj`, which records for each
  capability probed by the source whether the attribute exists and what the
  call returns (or that it raises).  External library calls (CadQuery
  writers, `trimesh` mesh loading, `Path.unlink`) are modelled by explicit
  outcome parameters and an explicit file-exists flag.
* `math.degrees(math.acos(sqrt _))` is abstracted as a function parameter
  `A : ℚ → ℚ` applied to the squared clamped dot product (the squared dot
  product of the normalised vectors is rational even though the dot product
  itself is not); all probe and control logic is independent of `A`.
-/

/-- A Python value as it can occur in a printability model dict or in a
rules dict: `None`, a bool, an int, a float (idealised as an exact
rational), a string, a list, or a dict (association list in insertion
order, keys unique). -/
inductive PyVal where
  | none : PyVal
  | bool (b : Bool) : PyVal
  | int (i : Int) : PyVal
  | float (q : ℚ) : PyVal
  | str (s : String) : PyVal
  | list (items : List PyVal) : PyVal
  | dict (entries : List (String × PyVal)) : PyVal

/-! ### String helpers mirroring the Python string operations used -/

/-- Decimal digit character. -/
def digitChar (d : ℕ) : Char :=
  if d = 0 then '0' else if d = 1 then '1' else if d = 2 then '2'
  else if d = 3 then '3' else if d = 4 then '4' else if d = 5 then '5'
  else if d = 6 then '6' else if d = 7 then '7' else if d = 8 then '8'
  else '9'

/-- Decimal digits of a natural number, most significant first
(fuel-structured so that the kernel reduces it). -/
def natDigsAux : ℕ → ℕ → List Char
  | 0, _ => []
  | fuel + 1, n =>
    if n < 10 then [digitChar n]
    else natDigsAux fuel (n / 10) ++ [digitChar (n % 10)]

/-- Decimal representation of a natural number, as Python renders it. -/
def natRepr (n : ℕ) : String :=
  String.mk (natDigsAux (n + 1) n)

/-- Decimal representation of an integer, as Python renders an `int`. -/
def intRepr (i : Int) : String :=
  if i < 0 then "-" ++ natRepr i.natAbs else natRepr i.natAbs

/-- Strip trailing-zero-free decimal rendering of a rational that has a
terminating decimal expansion, matching Python `repr` on a `float` whose
value is that decimal (e.g. `0.5`, `0.8`, `2.0`).  Values whose denominator
divides no power of ten up to `10 ^ 60` cannot arise from a Python float
(float denominators are powers of two, and `2 ^ k ∣ 10 ^ k`); that branch
falls back to a fraction rendering. -/
def floatRepr (q : ℚ) : String :=
  match (List.range 61).find? (fun k => 10 ^ k % q.den == 0) with
  | Option.none => intRepr q.num ++ "/" ++ natRepr q.den
  | some k =>
    if k = 0 then intRepr q.num ++ ".0"
    else
      let digs := natRepr (q.num.natAbs * (10 ^ k / q.den))
      let padded := if digs.length ≤ k
        then String.mk (List.replicate (k + 1 - digs.length) '0') ++ digs
        else digs
      let cs := padded.data
      (if q.num < 0 then "-" else "")
        ++ String.mk (cs.take (cs.length - k)) ++ "."
        ++ String.mk (cs.drop (cs.length - k))

/-- Python `str.lower()` (ASCII, which covers every string the library
handles). -/
def strLower (s : String) : String :=
  String.mk (s.data.map Char.toLower)

/-- Python `str.upper()` (ASCII). -/
def strUpper (s : String) : String :=
  String.mk (s.data.map Char.toUpper)

/-- Python `str.lstrip(".")`: remove leading dots. -/
def lstripDots (s : String) : String :=
  String.mk (s.data.dropWhile (fun c => c = '.'))

/-- Python `key.replace("_", " ")`. -/
def underscoreToSpace (s : String) : String :=
  String.mk (s.data.map (fun c => if c = '_' then ' ' else c))

/-- Python `str.capitalize()`: first character uppercased, every remaining
character lowercased. -/
def pyCapitalize (s : String) : String :=
  match s.data with
  | [] => ""
  | c :: rest => String.mk (Char.toUpper c :: rest.map Char.toLower)

/-- Modelled from the spec: "rule name ... first letter capitalized" read
literally, i.e. only the first character is changed and the rest of the
string is left untouched.  Used to compare the spec's wording with the
source's `str.capitalize()`. -/
def capFirst (s : String) : String :=
  match s.data with
  | [] => ""
  | c :: rest => String.mk (Char.toUpper c :: rest)

/-- Python `"; ".join(msgs)`. -/
def joinSemi (msgs : List String) : String :=
  String.intercalate "; " msgs

/-- Final path component (`pathlib` name of the path, ignoring trailing
slashes), used to compute the suffix of a destination file name. -/
def lastComponent (s : String) : String :=
  let rcs := s.data.reverse.dropWhile (fun c => c = '/')
  String.mk ((rcs.takeWhile (fun c => c ≠ '/')).reverse)

/-- Index of the last `'.'` in a character list, if any. -/
def lastDotIdx (cs : List Char) : Option ℕ :=
  ((List.range cs.length).filter (fun i => cs.getD i ' ' = '.')).getLast?

/-- Python `pathlib.Path(s).suffix`: the extension of the final component,
including the dot; empty when the final component has no dot, starts with
its only dot, or ends with the dot. -/
def pathSuffix (s : String) : String :=
  let cs := (lastComponent s).data
  match lastDotIdx cs with
  | some i => if 0 < i ∧ i < cs.length - 1 then String.mk (cs.drop i) else ""
  | Option.none => ""

/-! ### Python value operations -/

/-- Numeric view of a Python value: Python compares and mixes `bool`,
`int` and `float` numerically (`True == 1`). -/
def PyVal.toNum? : PyVal → Option ℚ
  | .bool b => some (if b then 1 else 0)
  | .int i => some (i : ℚ)
  | .float q => some q
  | _ => Option.none

/-- Python truthiness of the values the library can meet. -/
def pyTruthy : PyVal → Bool
  | .none => false
  | .bool b => b
  | .int i => decide (i ≠ 0)
  | .float q => decide (q ≠ 0)
  | .str s => decide (s ≠ "")
  | .list items => !items.isEmpty
  | .dict entries => !entries.isEmpty

/-- Python `str()` / f-string interpolation of the values that can reach a
diagnostic message.  Containers never reach an f-string in the library (a
comparison raises `TypeError` first), so their rendering is a placeholder. -/
def pyStr : PyVal → String
  | .none => "None"
  | .bool b => if b then "True" else "False"
  | .int i => intRepr i
  | .float q => floatRepr q
  | .str s => s
  | .list _ => "<list>"
  | .dict _ => "<dict>"

/-- Python `a < b` for the value shapes the library compares: numbers
compare numerically, strings lexicographically; every other combination
raises `TypeError` (`.error ()`).  (Ordering between two lists, which no
rule file uses as a threshold, is modelled as incomparable.) -/
def pyLt (a b : PyVal) : Except Unit Bool :=
  match a.toNum?, b.toNum? with
  | some x, some y => .ok (decide (x < y))
  | _, _ =>
    match a, b with
    | .str s, .str t => .ok (decide (s < t))
    | _, _ => .error ()

/-- Python `a > b`, with the same comparability domain as `pyLt`. -/
def pyGt (a b : PyVal) : Except Unit Bool :=
  match a.toNum?, b.toNum? with
  | some x, some y => .ok (decide (x > y))
  | _, _ =>
    match a, b with
    | .str s, .str t => .ok (decide (s > t))
    | _, _ => .error ()

/-- Raw association-list lookup (first entry with the key; dict keys are
unique, and insertion order is iteration order). -/
def lookupVal (d : List (String × PyVal)) (k : String) : Option PyVal :=
  (d.find? (fun p => p.1 == k)).map (fun p => p.2)

/-- Python `d.get(k)` as observed through an `is None` test: absent keys
and keys stored with value `None` are indistinguishable downstream, both
yield `None`. -/
def pyGet (d : List (String × PyVal)) (k : String) : Option PyVal :=
  match lookupVal d k with
  | some PyVal.none => Option.none
  | x => x

/-- Python `d[k] = v`: replace in place if the key exists, else append. -/
def dictSet (d : List (String × PyVal)) (k : String) (v : PyVal) :
    List (String × PyVal) :=
  if d.any (fun p => p.1 == k) then
    d.map (fun p => if p.1 == k then (k, v) else p)
  else d ++ [(k, v)]

/-- Python iteration `for x in v`: lists yield their items, strings their
characters, dicts their keys; numbers and `None` raise `TypeError`. -/
def pyIterList : PyVal → Except Unit (List PyVal)
  | .list items => .ok items
  | .str s => .ok (s.data.map (fun c => PyVal.str (String.mk [c])))
  | .dict entries => .ok (entries.map (fun p => PyVal.str p.1))
  | _ => .error ()

/-! ### The rule evaluator: `validate` from `validator.py` -/

/-- A printability model: the dict attached to a CAD object. -/
abbrev Model := List (String × PyVal)

/-- A rules document as loaded from a rules JSON file (top-level dict,
normally holding a "printer" string and a "rules" dict). -/
abbrev Rules := List (String × PyVal)

/-- Python `rules.get("rules", {})` followed by `.items()`: the default
applies only when the key is absent; a present non-dict value (including
`None`) raises when iterated. -/
def ruleVals (rules : Rules) : Except Unit (List (String × PyVal)) :=
  match lookupVal rules "rules" with
  | Option.none => .ok []
  | some (PyVal.dict entries) => .ok entries
  | some _ => .error ()

/-- The inner axis loop of `validate` for the `max_model_size_mm` rule:
`for axis, limit in value.items()` over the rule's axis dict, comparing
against the model's axis dict. -/
def axisEntries (mv : List (String × PyVal)) :
    List (String × PyVal) → Except Unit (List String)
  | [] => .ok []
  | (axis, limit) :: rest =>
    match (match pyGet mv axis with
      | Option.none => Except.ok []
      | some axisValue =>
        match pyGt axisValue limit with
        | .error _ => .error ()
        | .ok true => .ok ["Model size " ++ axis ++ " " ++ pyStr axisValue
            ++ " exceeds maximum " ++ pyStr limit]
        | .ok false => .ok []) with
    | .error e => .error e
    | .ok e1 =>
      match axisEntries mv rest with
      | .error e => .error e
      | .ok es => .ok (e1 ++ es)

/-- One iteration of the main loop of `validate` for rule entry
`(key, value)`. -/
def validateEntry (model : Model) (key : String) (value : PyVal) :
    Except Unit (List String) :=
  match pyGet model key with
  | Option.none => .ok []
  | some modelValue =>
    match value with
    | PyVal.dict axes =>
      match modelValue with
      | PyVal.dict mvEntries =>
        if key = "max_model_size_mm" then axisEntries mvEntries axes
        else .ok []
      | _ => .ok []
    | _ =>
      match pyLt modelValue value with
      | .error _ => .error ()
      | .ok true => .ok [pyCapitalize (underscoreToSpace key) ++ " "
          ++ pyStr modelValue ++ " is below minimum " ++ pyStr value]
      | .ok false => .ok []

/-- The main loop of `validate` over the rule entries, accumulating error
messages in iteration order; an exception aborts the whole call. -/
def validateEntries (model : Model) :
    List (String × PyVal) → Except Unit (List String)
  | [] => .ok []
  | (key, value) :: rest =>
    match validateEntry model key value with
    | .error e => .error e
    | .ok e1 =>
      match validateEntries model rest with
      | .error e => .error e
      | .ok es => .ok (e1 ++ es)

/-- `validate(model, rules)` from `validator.py`: returns the ordered list
of human-readable violation messages, or raises (`.error`) when a
comparison meets incomparable values. -/
def validate (model : Model) (rules : Rules) : Except Unit (List String) :=
  match ruleVals rules with
  | .error _ => .error ()
  | .ok rv => validateEntries model rv

/-! ### Duck-typed CAD objects and the measurement providers -/

/-- A normal value after the optional `toTuple` conversion: either a
3-component vector or something that fails the list/tuple-of-length-3
check. -/
inductive NormalVal where
  | tup (x y z : ℚ) : NormalVal
  | bad : NormalVal

/-- Outcome of probing a face normal via the `normalAt` method. -/
inductive ProbeNormal where
  | noAttr : ProbeNormal
  | raised : ProbeNormal
  | noneVal : ProbeNormal
  | val (v : NormalVal) : ProbeNormal

/-- A face as probed by `shape_max_overhang_angle`: the `normalAt` method
outcome and the `normal` property (absent, or its value; a property whose
value is `None` is observably the same as an absent property). -/
structure Face where
  normalAt : ProbeNormal := ProbeNormal.noAttr
  normalProp : Option NormalVal := Option.none

/-- Outcome of one of the face-enumeration attributes
(`faces` / `Faces` / `all_faces`): absent, a method that raises, a method
returning a list, a plain list/tuple property, or an attribute of another
shape. -/
inductive FaceAttr where
  | absent : FaceAttr
  | methodRaises : FaceAttr
  | method (fs : List Face) : FaceAttr
  | prop (fs : List Face) : FaceAttr
  | other : FaceAttr

/-- Outcome of `shape1.intersect(shape2)` together with the `isNull` /
`Volume` probes on the result. -/
inductive IsectOutcome where
  | raised : IsectOutcome
  | noneRes : IsectOutcome
  | res (isNull : Option (Except Unit Bool)) (volume : Option (Except Unit ℚ))
      : IsectOutcome

/-- Outcome of a directed distance probe `float(a.distTo(b))` (through
whichever of the equivalent method names exists): no callable method,
a raising call/conversion, or a distance value. -/
inductive DistOutcome where
  | noMethod : DistOutcome
  | raised : DistOutcome
  | val (q : ℚ) : DistOutcome

/-- A live bounding box (`xlen`/`ylen`/`zlen` in mm). -/
structure BBoxQ where
  xlen : ℚ
  ylen : ℚ
  zlen : ℚ

/-- A duck-typed CAD object (shape or assembly) as observed through every
capability the library probes.  Solids inside an assembly are abstract
identifiers; pairwise probe outcomes are environment functions of the two
identifiers. -/
structure CadObj where
  printabilityModel : Option Model := Option.none
  valBBox : Option BBoxQ := Option.none
  directBBox : Option (Option BBoxQ) := Option.none
  isValid : Option (Except Unit Bool) := Option.none
  isClosed : Option (Except Unit Bool) := Option.none
  hasOpenEdges : Option (Except Unit Bool) := Option.none
  openEdges : Option PyVal := Option.none
  solidsFn : Option (Except Unit (List ℕ)) := Option.none
  children : Option (List ℕ) := Option.none
  childIntersect : ℕ → Bool := fun _ => false
  childDist : ℕ → Bool := fun _ => false
  intersectCall : ℕ → ℕ → IsectOutcome := fun _ _ => IsectOutcome.raised
  distCall : ℕ → ℕ → DistOutcome := fun _ _ => DistOutcome.noMethod
  facesA : FaceAttr := FaceAttr.absent
  facesB : FaceAttr := FaceAttr.absent
  facesC : FaceAttr := FaceAttr.absent

/-- `is_manifold(shape)`: invalid-or-open reports non-manifold; a raising
`isValid()` or `isClosed()` call is caught and also reports non-manifold;
absence of both predicates defaults to manifold. -/
def is_manifold (o : CadObj) : Bool :=
  match o.isValid with
  | some (.error _) => false
  | some (.ok false) => false
  | _ =>
    match o.isClosed with
    | some (.error _) => false
    | some (.ok false) => false
    | _ => true

/-- `shape_has_open_edges(shape)`: a raising `hasOpenEdges()` call is
caught and reports open edges; absence of both capabilities defaults to no
open edges. -/
def shape_has_open_edges (o : CadObj) : Bool :=
  match o.hasOpenEdges with
  | some (.ok b) => b
  | some (.error _) => true
  | Option.none =>
    match o.openEdges with
    | some v => pyTruthy v
    | Option.none => false

/-- Solid enumeration shared by the assembly-level probes: `solids()` if it
exists (a raising call yields the empty list), else the children exposing
the needed capability. -/
def getSolids (o : CadObj) (cap : ℕ → Bool) : List ℕ :=
  let s : List ℕ :=
    match o.solidsFn with
    | some (.ok l) => l
    | some (.error _) => []
    | Option.none => []
  if s.isEmpty then
    match o.children with
    | some cs => cs.filter cap
    | Option.none => []
  else s

/-- Did a pair intersection probe find a non-null intersection?  A raising
`intersect` is skipped; a raising `isNull()`/`Volume()` on the result
counts as not-null (so the pair counts as intersecting). -/
def intersects : IsectOutcome → Bool
  | .raised => false
  | .noneRes => false
  | .res isNull volume =>
    let null : Bool :=
      match isNull with
      | some (.ok b) => b
      | some (.error _) => false
      | Option.none =>
        match volume with
        | some (.ok v) => decide (v = 0)
        | some (.error _) => false
        | Option.none => false
    !null

/-- The unordered-pair loop `for i, s1 in enumerate(solids): for s2 in
solids[i+1:]`, short-circuiting on the first positive pair. -/
def anyPairs (f : ℕ → ℕ → Bool) : List ℕ → Bool
  | [] => false
  | x :: rest => rest.any (f x) || anyPairs f rest

/-- `assembly_has_intersections(assembly)`. -/
def assembly_has_intersections (o : CadObj) : Bool :=
  anyPairs (fun a b => intersects (o.intersectCall a b))
    (getSolids o o.childIntersect)

/-- Successful distance probes for one unordered pair, trying both call
directions. -/
def pairDists (o : CadObj) (a b : ℕ) : List ℚ :=
  [o.distCall a b, o.distCall b a].filterMap fun d =>
    match d with
    | DistOutcome.val q => some q
    | _ => Option.none

/-- Fold the minimum distance over all pairs (`None` when no pair produced
a distance). -/
def minClearAux (o : CadObj) : List ℕ → Option ℚ → Option ℚ
  | [], acc => acc
  | x :: rest, acc =>
    let acc2 := rest.foldl (fun ac b =>
      match pairDists o x b with
      | [] => ac
      | d :: ds =>
        let pairDist := ds.foldl min d
        match ac with
        | Option.none => some pairDist
        | some m => if pairDist < m then some pairDist else some m) acc
    minClearAux o rest acc2

/-- `assembly_minimum_clearance(assembly)`. -/
def assembly_minimum_clearance (o : CadObj) : Option ℚ :=
  minClearAux o (getSolids o o.childDist) Option.none

/-- Face enumeration of `shape_max_overhang_angle`: try
`faces`, `Faces`, `all_faces` in order; a raising or empty-list method
falls through to the next name, a list/tuple property is taken as-is
(ending the search even when empty). -/
def facesFrom : List FaceAttr → List Face
  | [] => []
  | FaceAttr.method fs :: rest => if fs.isEmpty then facesFrom rest else fs
  | FaceAttr.methodRaises :: rest => facesFrom rest
  | FaceAttr.prop fs :: _ => fs
  | FaceAttr.absent :: rest => facesFrom rest
  | FaceAttr.other :: rest => facesFrom rest

/-- The faces of a shape as enumerated by `shape_max_overhang_angle`. -/
def enumFaces (o : CadObj) : List Face :=
  facesFrom [o.facesA, o.facesB, o.facesC]

/-- The usable normal of a face, if any: the `normalAt` method first (a
raising call degrades to `None`; a non-`None` result that fails the
3-component check is rejected without falling back), then the `normal`
property. -/
def faceNormal : Face → Option (ℚ × ℚ × ℚ)
  | ⟨ProbeNormal.val (NormalVal.tup x y z), _⟩ => some (x, y, z)
  | ⟨ProbeNormal.val NormalVal.bad, _⟩ => Option.none
  | ⟨_, some (NormalVal.tup x y z)⟩ => some (x, y, z)
  | ⟨_, some NormalVal.bad⟩ => Option.none
  | ⟨_, Option.none⟩ => Option.none

/-- The squared clamped absolute dot product of the normalised face normal
and the normalised build direction.  `sqrt (nn) or 1.0` in the source turns
a zero-length vector into an unnormalised (zero) one, which the `if _ = 0`
guards reproduce; clamping `|dot|` to `[0, 1]` is clamping its square. -/
def clampedDotSq (n z : ℚ × ℚ × ℚ) : ℚ :=
  let nn := n.1 * n.1 + n.2.1 * n.2.1 + n.2.2 * n.2.2
  let zz := z.1 * z.1 + z.2.1 * z.2.1 + z.2.2 * z.2.2
  let d := n.1 * z.1 + n.2.1 * z.2.1 + n.2.2 * z.2.2
  min (d * d / ((if nn = 0 then 1 else nn) * (if zz = 0 then 1 else zz))) 1

/-- The per-face loop of `shape_max_overhang_angle`: skip faces without a
usable normal, apply the angle function `A` to the squared clamped dot
product, and keep the running maximum (started at `0.0`). -/
def overhangLoop (A : ℚ → ℚ) (zdir : ℚ × ℚ × ℚ) :
    List Face → ℚ → ℚ
  | [], m => m
  | f :: rest, m =>
    match faceNormal f with
    | Option.none => overhangLoop A zdir rest m
    | some n =>
      let angle := A (clampedDotSq n zdir)
      overhangLoop A zdir rest (if angle > m then angle else m)

/-- `shape_max_overhang_angle(shape, z_dir)`: `None` when no faces were
enumerated, else the loop's maximum.  `A` abstracts
`math.degrees(math.acos(sqrt _))` on the squared clamped dot product. -/
def shape_max_overhang_angle (A : ℚ → ℚ) (o : CadObj)
    (zdir : ℚ × ℚ × ℚ) : Option ℚ :=
  match enumFaces o with
  | [] => Option.none
  | fs => some (overhangLoop A zdir fs 0)

/-! ### The orchestrator: `SaveValidator` from `save_validator.py` -/

/-- A Python exception surfaced by the orchestrator: a `ValidationError`
carrying its message, a `TypeError` (from comparing incomparable values),
or an OS error (never produced, present for the unreachable arm of the
`missing_ok` unlink). -/
inductive PyErr where
  | valErr (msg : String) : PyErr
  | typeErr : PyErr
  | osErr : PyErr

/-- Truthiness of a `dict.get` result (`None` when the key is absent). -/
def pyTruthyOpt : Option PyVal → Bool
  | some v => pyTruthy v
  | Option.none => false

/-- The live bounding-box probe of `_validate_obj`:
`obj.val().BoundingBox()` first (any exception in the chain is caught),
falling back to a direct `BoundingBox()` attribute when present, any
failure degrading to no override. -/
def probeBBox (o : CadObj) : Option BBoxQ :=
  match o.valBBox with
  | some b => some b
  | Option.none =>
    match o.directBBox with
    | some (some b) => some b
    | _ => Option.none

/-- The combined measurement set of `_validate_obj`: a copy of the attached
model, with the live bounding box overriding `max_model_size_mm` when that
rule is configured and a bounding box could be probed. -/
def combinedModel (rv : List (String × PyVal)) (o : CadObj) (m : Model) :
    Model :=
  match pyGet rv "max_model_size_mm" with
  | Option.none => m
  | some _ =>
    match probeBBox o with
    | Option.none => m
    | some b => dictSet m "max_model_size_mm" (PyVal.dict
        [("X", PyVal.float b.xlen), ("Y", PyVal.float b.ylen),
         ("Z", PyVal.float b.zlen)])

/-- The clearance gate of `_validate_obj`: only runs when the rule is
present (not `None`) and the object has a `solids` attribute; an
unavailable clearance measurement passes. -/
def clearanceCheck (rv : List (String × PyVal)) (o : CadObj) :
    Except PyErr Unit :=
  match pyGet rv "minimum_clearance_between_parts_mm" with
  | Option.none => .ok ()
  | some minClear =>
    if o.solidsFn.isSome then
      match assembly_minimum_clearance o with
      | Option.none => .ok ()
      | some c =>
        match pyLt (PyVal.float c) minClear with
        | .error _ => .error PyErr.typeErr
        | .ok true => .error (PyErr.valErr ("Clearance " ++ floatRepr c
            ++ " below minimum " ++ pyStr minClear))
        | .ok false => .ok ()
    else .ok ()

/-- The overhang gate of `_validate_obj`: only runs when the rule is
present (not `None`); an unavailable angle passes. -/
def overhangCheck (A : ℚ → ℚ) (rv : List (String × PyVal)) (o : CadObj) :
    Except PyErr Unit :=
  match pyGet rv "overhang_max_angle_deg" with
  | Option.none => .ok ()
  | some maxOverhang =>
    match shape_max_overhang_angle A o (0, 0, 1) with
    | Option.none => .ok ()
    | some angle =>
      match pyGt (PyVal.float angle) maxOverhang with
      | .error _ => .error PyErr.typeErr
      | .ok true => .error (PyErr.valErr ("Overhang angle " ++ floatRepr angle
          ++ " exceeds maximum " ++ pyStr maxOverhang))
      | .ok false => .ok ()

/-- `SaveValidator._validate_obj`: skip entirely when no model is attached;
else run the evaluator on the combined measurements (raising a
`ValidationError` joining all messages with "; "), then the structural
checks in order manifold, open edges, intersections, clearance, overhang,
each gated by its rule. -/
def validate_obj (A : ℚ → ℚ) (r : Rules) (o : CadObj) : Except PyErr Unit :=
  match o.printabilityModel with
  | Option.none => .ok ()
  | some m =>
    match ruleVals r with
    | .error _ => .error PyErr.typeErr
    | .ok rv =>
      match validate (combinedModel rv o m) r with
      | .error _ => .error PyErr.typeErr
      | .ok errs =>
        if errs ≠ [] then .error (PyErr.valErr (joinSemi errs))
        else if pyTruthyOpt (pyGet rv "manifold_geometry_required")
            && !is_manifold o then
          .error (PyErr.valErr "Non-manifold geometry detected")
        else if pyTruthyOpt (pyGet rv "no_open_edges")
            && shape_has_open_edges o then
          .error (PyErr.valErr "Object contains open edges")
        else if pyTruthyOpt (pyGet rv "no_intersecting_geometry")
            && assembly_has_intersections o then
          .error (PyErr.valErr "Intersecting geometry detected")
        else
          match clearanceCheck rv o with
          | .error e => .error e
          | .ok _ => overhangCheck A rv o

/-- `SaveValidator._check_triangle_count`: nothing to do without a
configured limit; else compare the reloaded mesh's triangle count against
the limit.  `triCount` is the face count `trimesh` reports for the written
artifact. -/
def check_triangle_count (r : Rules) (triCount : ℕ) : Except PyErr Unit :=
  match ruleVals r with
  | .error _ => .error PyErr.typeErr
  | .ok rv =>
    match pyGet rv "maximum_file_triangle_count" with
    | Option.none => .ok ()
    | some limit =>
      match pyGt (PyVal.int triCount) limit with
      | .error _ => .error PyErr.typeErr
      | .ok true => .error (PyErr.valErr ("Triangle count " ++ natRepr triCount
          ++ " exceeds maximum " ++ pyStr limit))
      | .ok false => .ok ()

/-- `SaveValidator._validate_file_format`: build the allow-list from the
preferred and alternate formats; pass when no name, no allow-list, or no
extension; raise `ValidationError` when the extension is outside the
allow-list. -/
def validate_file_format (r : Rules) (fileName : Option PyVal) :
    Except PyErr Unit :=
  match fileName with
  | Option.none => .ok ()
  | some fv =>
    match ruleVals r with
    | .error _ => .error PyErr.typeErr
    | .ok rv =>
      let preferred := pyGet rv "preferred_file_format"
      let alternates : PyVal :=
        match pyGet rv "alternate_file_formats" with
        | Option.none => PyVal.list []
        | some v => if pyTruthy v then v else PyVal.list []
      match pyIterList alternates with
      | .error _ => .error PyErr.typeErr
      | .ok altItems =>
        let allowed : List String :=
          (match preferred with
            | some p => if pyTruthy p then [lstripDots (strLower (pyStr p))]
                else []
            | Option.none => [])
          ++ altItems.foldl (fun acc alt =>
              if pyTruthy alt then acc ++ [lstripDots (strLower (pyStr alt))]
              else acc) []
        if allowed = [] then .ok ()
        else
          match fv with
          | PyVal.str s =>
            let ext := lstripDots (strLower (pathSuffix s))
            if ext ≠ "" ∧ ext ∉ allowed then
              .error (PyErr.valErr ("File format " ++ strUpper ext
                ++ " is not supported"))
            else .ok ()
          | _ => .error PyErr.typeErr

/-- Destination resolution shared by the export wrappers: the `fileName`
keyword, then (only for `export` / `cq_export`) the `fname` keyword, then
the first positional argument.  A resolved Python `None` is collapsed to
"no destination", which is how every later `is None` test observes it. -/
def resolveFileName (useFname : Bool) (args : List PyVal)
    (kwargs : List (String × PyVal)) : Option PyVal :=
  let raw :=
    match lookupVal kwargs "fileName" with
    | some v => some v
    | Option.none =>
      match (if useFname then lookupVal kwargs "fname" else Option.none) with
      | some v => some v
      | Option.none => args.head?
  match raw with
  | some PyVal.none => Option.none
  | x => x

/-- `Path(name).unlink(missing_ok)`: removes the file; with `missing_ok`
absence is not an error, without it absence raises.  Returns the new
file-exists state. -/
def pathUnlink (missingOk : Bool) (fileExists : Bool) : Except Unit Bool :=
  if fileExists then .ok false
  else if missingOk then .ok false else .error ()

/-- Result of one intercepted export call: the surfaced result, and the
arguments forwarded to the underlying writer (`Option.none` when the
writer was never invoked). -/
structure ExpRes where
  result : Except PyErr Unit
  delegated : Option (List PyVal × List (String × PyVal))

/-- Shared wrapper body of the non-STL export variants: validate the
object, resolve the destination, gate the file format, then delegate
forwarding all arguments unchanged. -/
def exportWrap (A : ℚ → ℚ) (useFname : Bool) (r : Rules) (o : CadObj)
    (args : List PyVal) (kwargs : List (String × PyVal)) : ExpRes :=
  match validate_obj A r o with
  | .error e => ⟨.error e, Option.none⟩
  | .ok _ =>
    match validate_file_format r (resolveFileName useFname args kwargs) with
    | .error e => ⟨.error e, Option.none⟩
    | .ok _ => ⟨.ok (), some (args, kwargs)⟩

/-- `SaveValidator.export` (delegates to `cadquery.exporters.export`). -/
def export' (A : ℚ → ℚ) (r : Rules) (o : CadObj) (args : List PyVal)
    (kwargs : List (String × PyVal)) : ExpRes :=
  exportWrap A true r o args kwargs

/-- `SaveValidator.cq_export` (delegates to `cadquery.export`). -/
def cq_export (A : ℚ → ℚ) (r : Rules) (o : CadObj) (args : List PyVal)
    (kwargs : List (String × PyVal)) : ExpRes :=
  exportWrap A true r o args kwargs

/-- `SaveValidator.export_step`. -/
def export_step (A : ℚ → ℚ) (r : Rules) (o : CadObj) (args : List PyVal)
    (kwargs : List (String × PyVal)) : ExpRes :=
  exportWrap A false r o args kwargs

/-- `SaveValidator.export_bin`. -/
def export_bin (A : ℚ → ℚ) (r : Rules) (o : CadObj) (args : List PyVal)
    (kwargs : List (String × PyVal)) : ExpRes :=
  exportWrap A false r o args kwargs

/-- `SaveValidator.export_brep`. -/
def export_brep (A : ℚ → ℚ) (r : Rules) (o : CadObj) (args : List PyVal)
    (kwargs : List (String × PyVal)) : ExpRes :=
  exportWrap A false r o args kwargs

/-- `SaveValidator.assembly_export`. -/
def assembly_export (A : ℚ → ℚ) (r : Rules) (o : CadObj) (args : List PyVal)
    (kwargs : List (String × PyVal)) : ExpRes :=
  exportWrap A false r o args kwargs

/-- `SaveValidator.assembly_save`. -/
def assembly_save (A : ℚ → ℚ) (r : Rules) (o : CadObj) (args : List PyVal)
    (kwargs : List (String × PyVal)) : ExpRes :=
  exportWrap A false r o args kwargs

/-- `SaveValidator.export_stl`: like the other wrappers, but writing the
file (`shape.exportStl`) and, when a destination is known, reloading it
and enforcing the triangle budget, deleting the just-written file
(`unlink(missing_ok=True)`) before re-raising a `ValidationError`.
`triCount` is the triangle count of the written artifact as `trimesh`
loads it; `fileExists0` is the prior file-exists state of the destination;
the second component of the result is the file-exists state afterwards. -/
def export_stl (A : ℚ → ℚ) (r : Rules) (o : CadObj) (triCount : ℕ)
    (fileExists0 : Bool) (args : List PyVal)
    (kwargs : List (String × PyVal)) : ExpRes × Bool :=
  match validate_obj A r o with
  | .error e => (⟨.error e, Option.none⟩, fileExists0)
  | .ok _ =>
    let fn? := resolveFileName false args kwargs
    match validate_file_format r fn? with
    | .error e => (⟨.error e, Option.none⟩, fileExists0)
    | .ok _ =>
      let fileExists1 := if fn?.isSome then true else fileExists0
      match fn? with
      | Option.none => (⟨.ok (), some (args, kwargs)⟩, fileExists1)
      | some _ =>
        match check_triangle_count r triCount with
        | .ok _ => (⟨.ok (), some (args, kwargs)⟩, fileExists1)
        | .error (PyErr.valErr msg) =>
          match pathUnlink true fileExists1 with
          | .ok fileExists2 =>
            (⟨.error (PyErr.valErr msg), some (args, kwargs)⟩, fileExists2)
          | .error _ => (⟨.error PyErr.osErr, some (args, kwargs)⟩, fileExists1)
        | .error e => (⟨.error e, some (args, kwargs)⟩, fileExists1)

/-! ### General lemmas about the embedding -/

/-- A key that raw lookup misses is absent for `pyGet` as well. -/
theorem pyGet_none_of_lookup_none (d : List (String × PyVal)) (k : String)
    (h : lookupVal d k = Option.none) : pyGet d k = Option.none := by
  simp [pyGet, h]

/-- A rule whose key the model misses contributes nothing. -/
theorem validateEntry_absent (model : Model) (k : String) (v : PyVal)
    (h : lookupVal model k = Option.none) :
    validateEntry model k v = .ok [] := by
  simp [validateEntry, pyGet, h]

/-- The numeric view of a Python number, defaulting to `0` (used only
under an `isNum` hypothesis). -/
def ratOf (v : PyVal) : ℚ := v.toNum?.getD 0

/-- Whether a Python value is a number (bool, int or float). -/
def isNum (v : PyVal) : Bool := v.toNum?.isSome

/-- On numbers, `pyGt` is the strict order on the numeric views. -/
theorem pyGt_num (a b : PyVal) (ha : isNum a = true) (hb : isNum b = true) :
    pyGt a b = .ok (decide (ratOf a > ratOf b)) := by
  cases a <;> cases b <;> simp_all [isNum, PyVal.toNum?, pyGt, ratOf]

/-- A number is never the `None` value. -/
theorem isNum_ne_none (a : PyVal) (ha : isNum a = true) : a ≠ PyVal.none := by
  cases a <;> simp_all [isNum, PyVal.toNum?]

/-- `validate` against a well-formed rules document is the entry loop over
the rule entries. -/
theorem validate_dict (model : Model) (rv : List (String × PyVal)) :
    validate model [("rules", PyVal.dict rv)] = validateEntries model rv := rfl

/-- C10: with a configured file-format allow-list (a preferred format
string plus a list of alternate format strings), a destination file name
whose extension is empty always passes the file-format gate, whatever the
allow-list holds. -/
theorem empty_extension_passes (p : String) (alts : List String) (s : String)
    (h : pathSuffix s = "") :
    validate_file_format
      [("rules", PyVal.dict
        [("preferred_file_format", PyVal.str p),
         ("alternate_file_formats", PyVal.list (alts.map PyVal.str))])]
      (some (PyVal.str s)) = .ok () := by
  have hext : lstripDots (strLower (pathSuffix s)) = "" := by rw [h]; rfl
  by_cases halt : alts = [] <;>
    simp [validate_file_format, ruleVals, lookupVal, pyGet, pyIterList,
      pyTruthy, hext, halt]

/-- C10 witness: a destination without an extension passes a concrete
allow-list gate. -/
theorem empty_extension_passes_witness :
    pathSuffix "outputfile" = ""
    ∧ validate_file_format
        [("rules", PyVal.dict
          [("preferred_file_format", PyVal.str "stl"),
           ("alternate_file_formats",
             PyVal.list (["step", "3mf"].map PyVal.str))])]
        (some (PyVal.str "outputfile")) = .ok () :=
  ⟨rfl, empty_extension_passes "stl" ["step", "3mf"] "outputfile" rfl⟩

/-- C8: a rule key that is absent from the model contributes no violation,
for any threshold value: dropping every rule entry with that key leaves
`validate` unchanged. -/
theorem absent_rule_no_violation (model : Model) (rs : List (String × PyVal))
    (k : String) (h : lookupVal model k = Option.none) :
    validate model [("rules", PyVal.dict rs)]
      = validate model [("rules", PyVal.dict (rs.filter (fun p => p.1 != k)))] := by
  rw [validate_dict, validate_dict]
  induction rs with
  | nil => rfl
  | cons hd tl ih =>
    obtain ⟨k', v⟩ := hd
    by_cases hk : k' = k
    · subst hk
      rw [List.filter_cons]
      simp only [bne_self_eq_false, Bool.false_eq_true, if_false]
      rw [← ih]
      simp only [validateEntries, validateEntry_absent model k' v h]
      cases hte : validateEntries model tl <;> simp [hte]
    · rw [List.filter_cons]
      simp only [bne_iff_ne, ne_eq, hk, not_false_eq_true, if_true]
      simp only [validateEntries, ih]

/-- C8 witness: with `minimum_wall_thickness_mm` absent from the model,
removing that rule changes nothing. -/
theorem absent_rule_no_violation_witness :
    lookupVal [("other_measurement", PyVal.int 3)] "minimum_wall_thickness_mm"
      = Option.none
    ∧ validate [("other_measurement", PyVal.int 3)]
        [("rules", PyVal.dict
          [("minimum_wall_thickness_mm", PyVal.float (mkRat 4 5))])]
      = validate [("other_measurement", PyVal.int 3)]
        [("rules", PyVal.dict
          ([("minimum_wall_thickness_mm", PyVal.float (mkRat 4 5))].filter
            (fun p => p.1 != "minimum_wall_thickness_mm")))] :=
  ⟨rfl, absent_rule_no_violation
    [("other_measurement", PyVal.int 3)]
    [("minimum_wall_thickness_mm", PyVal.float (mkRat 4 5))]
    "minimum_wall_thickness_mm" rfl⟩

/-- C3 counterexample: for the scalar rule name `minimum_X_mm` (interior
uppercase), the produced message "Minimum x mm 0.5 is below minimum 0.8"
is not the claimed "rule name with underscores replaced by spaces and
first letter capitalized" (which would keep the `X`): Python
`str.capitalize()` also lowercases the rest of the name. -/
theorem scalar_message_capitalize_cex :
    validate [("minimum_X_mm", PyVal.float (mkRat 1 2))]
      [("rules", PyVal.dict [("minimum_X_mm", PyVal.float (mkRat 4 5))])]
      = .ok ["Minimum x mm 0.5 is below minimum 0.8"]
    ∧ ("Minimum x mm 0.5 is below minimum 0.8" : String)
      ≠ capFirst (underscoreToSpace "minimum_X_mm") ++ " "
        ++ floatRepr (mkRat 1 2) ++ " is below minimum "
        ++ floatRepr (mkRat 4 5) :=
  ⟨rfl, by decide⟩

/-- C3 amended: for every scalar rule name `r` with threshold `m` and a
model value `v` for `r`, `validate` reports a violation iff `v < m`, with
message exactly the rule name with underscores replaced by spaces and then
Python-capitalized (first character uppercased, the rest lowercased),
followed by " 〈v〉 is below minimum 〈m〉"; in particular the concrete
example from the spec evaluates to exactly its expected message. -/
theorem scalar_rule_violation_amended :
    (∀ (r : String) (v m : ℚ),
      validate [(r, PyVal.float v)]
        [("rules", PyVal.dict [(r, PyVal.float m)])]
        = .ok (if v < m
            then [pyCapitalize (underscoreToSpace r) ++ " " ++ floatRepr v
                ++ " is below minimum " ++ floatRepr m]
            else []))
    ∧ validate [("minimum_wall_thickness_mm", PyVal.float (mkRat 1 2))]
        [("rules", PyVal.dict
          [("minimum_wall_thickness_mm", PyVal.float (mkRat 4 5))])]
        = .ok ["Minimum wall thickness mm 0.5 is below minimum 0.8"] := by
  refine ⟨?_, rfl⟩
  intro r v m
  rw [validate_dict]
  have hget : pyGet [(r, PyVal.float v)] r = some (PyVal.float v) := by
    simp [pyGet, lookupVal]
  simp only [validateEntries, validateEntry, hget, pyLt, PyVal.toNum?]
  by_cases h : v < m <;> simp [h, pyStr]

/-- C6 counterexample: `validate` is not raise-free on mismatched value
shapes: a string model value paired with a numeric scalar threshold makes
the comparison `model_value < value` raise `TypeError` instead of being
skipped. -/
theorem validate_raises_on_incomparable_cex :
    validate [("minimum_wall_thickness_mm", PyVal.str "thin")]
      [("rules", PyVal.dict
        [("minimum_wall_thickness_mm", PyVal.float (mkRat 4 5))])]
      = .error () := rfl

/-- C6 amended: a dict rule value whose model value is not a dict, or
whose key is not `max_model_size_mm`, is skipped (no violation, no
exception) — but a model value that does not support ordered comparison
with a scalar threshold (such as a string against a number) raises
`TypeError` instead of being skipped. -/
theorem shape_mismatch_skip_amended :
    (∀ (k : String) (axes : List (String × PyVal)) (mv : PyVal),
      ((∀ es, mv ≠ PyVal.dict es) ∨ k ≠ "max_model_size_mm") →
      validate [(k, mv)] [("rules", PyVal.dict [(k, PyVal.dict axes)])]
        = .ok [])
    ∧ (∀ (k t : String) (q : ℚ),
      validate [(k, PyVal.str t)]
        [("rules", PyVal.dict [(k, PyVal.float q)])] = .error ()) := by
  constructor
  · intro k axes mv hmv
    rw [validate_dict]
    have hget : lookupVal [(k, mv)] k = some mv := by
      simp [lookupVal]
    cases mv with
    | dict es =>
      rcases hmv with hne | hk
      · exact absurd rfl (hne es)
      · simp [validateEntries, validateEntry, pyGet, hget, hk]
    | none => simp [validateEntries, validateEntry, pyGet, hget]
    | bool b => simp [validateEntries, validateEntry, pyGet, hget]
    | int i => simp [validateEntries, validateEntry, pyGet, hget]
    | float q => simp [validateEntries, validateEntry, pyGet, hget]
    | str t => simp [validateEntries, validateEntry, pyGet, hget]
    | list items => simp [validateEntries, validateEntry, pyGet, hget]
  · intro k t q
    rw [validate_dict]
    have hget : lookupVal [(k, PyVal.str t)] k = some (PyVal.str t) := by
      simp [lookupVal]
    simp [validateEntries, validateEntry, pyGet, hget, pyLt, PyVal.toNum?]

/-- C6 witness: the amended skip behaviour at concrete inputs — a
non-dict model value under a dict rule is skipped, and a string model
value under a numeric scalar rule raises. -/
theorem shape_mismatch_skip_amended_witness :
    validate [("max_model_size_mm", PyVal.int 3)]
      [("rules", PyVal.dict
        [("max_model_size_mm", PyVal.dict [("X", PyVal.int 1)])])]
      = .ok []
    ∧ validate [("minimum_wall_thickness_mm", PyVal.str "wide")]
        [("rules", PyVal.dict
          [("minimum_wall_thickness_mm", PyVal.float (mkRat 1 2))])]
      = .error () :=
  ⟨shape_mismatch_skip_amended.1 "max_model_size_mm" [("X", PyVal.int 1)]
      (PyVal.int 3) (Or.inl (fun _ h => PyVal.noConfusion h)),
   shape_mismatch_skip_amended.2 "minimum_wall_thickness_mm" "wide"
      (mkRat 1 2)⟩

/-- A face exposing no normal capability at all (helper input for the
overhang claims). -/
def faceNoNormal : Face := {}

/-- A shape whose `faces` attribute is a list property holding exactly one
face without a usable normal. -/
def shapeBadNormals : CadObj := { facesA := FaceAttr.prop [faceNoNormal] }

/-- C9 counterexample: a shape whose faces are enumerated but yield no
usable normal makes `shape_max_overhang_angle` return `0.0` — not the
claimed "unavailable" (`None`), which the source reserves for an empty
face enumeration. -/
theorem overhang_unusable_normals_cex :
    enumFaces shapeBadNormals = [faceNoNormal]
    ∧ faceNormal faceNoNormal = Option.none
    ∧ shape_max_overhang_angle (fun q => q) shapeBadNormals (0, 0, 1)
      = some 0 :=
  ⟨rfl, rfl, rfl⟩

/-- The overhang loop is a fold of `max` over the angles of the faces with
a usable normal. -/
theorem overhangLoop_eq (A : ℚ → ℚ) (z : ℚ × ℚ × ℚ) (fs : List Face)
    (m : ℚ) :
    overhangLoop A z fs m
      = (fs.filterMap (fun f => (faceNormal f).map
          (fun n => A (clampedDotSq n z)))).foldl max m := by
  induction fs generalizing m with
  | nil => rfl
  | cons f rest ih =>
    cases hn : faceNormal f with
    | none => simp [overhangLoop, hn, List.filterMap_cons, ih]
    | some n =>
      simp only [overhangLoop, hn, List.filterMap_cons, Option.map_some',
        List.foldl_cons, ih]
      congr 1
      by_cases hgt : A (clampedDotSq n z) > m
      · simp [hgt, max_eq_right hgt.le]
      · simp [hgt, max_eq_left (not_lt.mp hgt)]

/-- C9 amended: `shape_max_overhang_angle` returns `None` exactly when no
faces were enumerated; when faces exist it returns the maximum of `0.0`
and the angles of the faces that yielded a usable normal (hence `0.0`,
not `None`, when faces exist but none is usable). -/
theorem overhang_angle_amended (A : ℚ → ℚ) (o : CadObj) (z : ℚ × ℚ × ℚ) :
    shape_max_overhang_angle A o z
      = match enumFaces o with
        | [] => Option.none
        | fs => some ((fs.filterMap (fun f => (faceNormal f).map
            (fun n => A (clampedDotSq n z)))).foldl max 0) := by
  unfold shape_max_overhang_angle
  cases henum : enumFaces o with
  | nil => rfl
  | cons f rest => simp [overhangLoop_eq]

/-- A present key whose stored value is a number is returned unchanged by
`pyGet`. -/
theorem pyGet_of_lookup_num (d : List (String × PyVal)) (k : String)
    (v : PyVal) (hl : lookupVal d k = some v) (hv : isNum v = true) :
    pyGet d k = some v := by
  cases v <;> simp_all [isNum, PyVal.toNum?, pyGet]

/-- A successful raw lookup returns a stored value of the dict. -/
theorem lookup_mem_values (d : List (String × PyVal)) (k : String)
    (v : PyVal) (hl : lookupVal d k = some v) : ∃ p ∈ d, p.2 = v := by
  simp only [lookupVal, Option.map_eq_some'] at hl
  obtain ⟨p, hp, hv⟩ := hl
  exact ⟨p, List.mem_of_find?_eq_some hp, hv⟩

/-- The axis loop evaluates each axis independently: with numeric limits
and numeric model axis values it yields, in the rule's axis order, one
message per axis whose model value strictly exceeds its limit. -/
theorem axisEntries_eq (mv : List (String × PyVal))
    (h2 : ∀ p ∈ mv, isNum p.2 = true) :
    ∀ axes : List (String × PyVal), (∀ p ∈ axes, isNum p.2 = true) →
    axisEntries mv axes
      = .ok (axes.filterMap (fun al =>
          (lookupVal mv al.1).bind (fun av =>
            if ratOf av > ratOf al.2
            then some ("Model size " ++ al.1 ++ " " ++ pyStr av
                ++ " exceeds maximum " ++ pyStr al.2)
            else Option.none))) := by
  intro axes
  induction axes with
  | nil => intro _; rfl
  | cons al rest ih =>
    intro h1
    obtain ⟨a, lim⟩ := al
    have hlim : isNum lim = true := h1 (a, lim) (List.mem_cons_self _ _)
    have h1' : ∀ p ∈ rest, isNum p.2 = true :=
      fun p hp => h1 p (List.mem_cons_of_mem _ hp)
    cases hl : lookupVal mv a with
    | none =>
      have hget : pyGet mv a = Option.none :=
        pyGet_none_of_lookup_none mv a hl
      simp [axisEntries, hget, hl, ih h1', List.filterMap_cons]
    | some av =>
      obtain ⟨p, hpmem, hpv⟩ := lookup_mem_values mv a av hl
      have hav : isNum av = true := hpv ▸ h2 p hpmem
      have hget : pyGet mv a = some av := pyGet_of_lookup_num mv a av hl hav
      simp only [axisEntries, hget, pyGt_num av lim hav hlim, ih h1',
        List.filterMap_cons, hl]
      by_cases hcmp : ratOf av > ratOf lim
      · simp [hcmp]
      · simp [hcmp]

/-- C4: for the `max_model_size_mm` rule with numeric per-axis limits and
a numeric axis mapping in the model, `validate` reports, independently for
each axis in the rule's iteration order, a violation iff the model's axis
value strictly exceeds that axis's limit, with one "Model size ..."
message per violating axis and nothing for the others. -/
theorem axis_bounds_per_axis (axes mv : List (String × PyVal))
    (h1 : ∀ p ∈ axes, isNum p.2 = true) (h2 : ∀ p ∈ mv, isNum p.2 = true) :
    validate [("max_model_size_mm", PyVal.dict mv)]
      [("rules", PyVal.dict [("max_model_size_mm", PyVal.dict axes)])]
      = .ok (axes.filterMap (fun al =>
          (lookupVal mv al.1).bind (fun av =>
            if ratOf av > ratOf al.2
            then some ("Model size " ++ al.1 ++ " " ++ pyStr av
                ++ " exceeds maximum " ++ pyStr al.2)
            else Option.none))) := by
  rw [validate_dict]
  have hget : pyGet [("max_model_size_mm", PyVal.dict mv)] "max_model_size_mm"
      = some (PyVal.dict mv) := rfl
  simp only [validateEntries, validateEntry, hget]
  rw [axisEntries_eq mv h2 axes h1]
  simp

/-- C4 witness: the spec's axis-bounds example — model `{X:2,Y:0.5,Z:0.5}`
against limits `{X:1,Y:1,Z:1}` reports exactly the violating axis. -/
theorem axis_bounds_per_axis_witness :
    validate [("max_model_size_mm", PyVal.dict
        [("X", PyVal.int 2), ("Y", PyVal.float (mkRat 1 2)),
         ("Z", PyVal.float (mkRat 1 2))])]
      [("rules", PyVal.dict [("max_model_size_mm", PyVal.dict
        [("X", PyVal.int 1), ("Y", PyVal.int 1), ("Z", PyVal.int 1)])])]
      = .ok ["Model size X 2 exceeds maximum 1"] := by
  rw [axis_bounds_per_axis _ _ (by decide) (by decide)]
  rfl

/-- When the evaluator step of `_validate_obj` yields violations, the call
raises a `ValidationError` joining all of them, before any structural
check. -/
theorem validate_obj_eval_fail (A : ℚ → ℚ) (r : Rules) (o : CadObj)
    (m : Model) (rv : List (String × PyVal)) (errs : List String)
    (hm : o.printabilityModel = some m) (hrv : ruleVals r = .ok rv)
    (hv : validate (combinedModel rv o m) r = .ok errs) (hne : errs ≠ []) :
    validate_obj A r o = .error (PyErr.valErr (joinSemi errs)) := by
  simp only [validate_obj, hm, hrv, hv]
  rw [if_pos hne]

/-- C1: for every CAD object with an attached model, if evaluating the
combined measurements yields at least one violation, every export variant
raises a `ValidationError` whose message joins all violation messages with
"; ", and the underlying writer is never invoked (no arguments are
forwarded, and `export_stl` leaves the file system untouched). -/
theorem export_gate_blocks_on_violations (A : ℚ → ℚ) (r : Rules)
    (o : CadObj) (m : Model) (rv : List (String × PyVal))
    (errs : List String) (args : List PyVal)
    (kwargs : List (String × PyVal)) (triCount : ℕ) (fileExists0 : Bool)
    (hm : o.printabilityModel = some m) (hrv : ruleVals r = .ok rv)
    (hv : validate (combinedModel rv o m) r = .ok errs) (hne : errs ≠ []) :
    export' A r o args kwargs
      = ⟨.error (PyErr.valErr (joinSemi errs)), Option.none⟩
    ∧ cq_export A r o args kwargs
      = ⟨.error (PyErr.valErr (joinSemi errs)), Option.none⟩
    ∧ export_step A r o args kwargs
      = ⟨.error (PyErr.valErr (joinSemi errs)), Option.none⟩
    ∧ export_bin A r o args kwargs
      = ⟨.error (PyErr.valErr (joinSemi errs)), Option.none⟩
    ∧ export_brep A r o args kwargs
      = ⟨.error (PyErr.valErr (joinSemi errs)), Option.none⟩
    ∧ assembly_export A r o args kwargs
      = ⟨.error (PyErr.valErr (joinSemi errs)), Option.none⟩
    ∧ assembly_save A r o args kwargs
      = ⟨.error (PyErr.valErr (joinSemi errs)), Option.none⟩
    ∧ export_stl A r o triCount fileExists0 args kwargs
      = (⟨.error (PyErr.valErr (joinSemi errs)), Option.none⟩,
         fileExists0) := by
  have h := validate_obj_eval_fail A r o m rv errs hm hrv hv hne
  refine ⟨?_, ?_, ?_, ?_, ?_, ?_, ?_, ?_⟩ <;>
    simp [export', cq_export, export_step, export_bin, export_brep,
      assembly_export, assembly_save, export_stl, exportWrap, h]

/-- A CAD object with a thin-wall measurement attached and no other
capability. -/
def objThinWall : CadObj :=
  { printabilityModel := some
      [("minimum_wall_thickness_mm", PyVal.float (mkRat 1 2))] }

/-- Rules requiring a minimum wall thickness of 0.8 mm. -/
def rulesWall : Rules :=
  [("rules", PyVal.dict
    [("minimum_wall_thickness_mm", PyVal.float (mkRat 4 5))])]

/-- C1 witness: a 0.5 mm wall against a 0.8 mm minimum makes `export`
raise the joined message and never delegate. -/
theorem export_gate_blocks_on_violations_witness :
    export' (fun q => q) rulesWall objThinWall [PyVal.str "out.stl"] []
      = ⟨.error (PyErr.valErr
          "Minimum wall thickness mm 0.5 is below minimum 0.8"),
         Option.none⟩ :=
  (export_gate_blocks_on_violations (fun q => q) rulesWall objThinWall
    [("minimum_wall_thickness_mm", PyVal.float (mkRat 1 2))]
    [("minimum_wall_thickness_mm", PyVal.float (mkRat 4 5))]
    ["Minimum wall thickness mm 0.5 is below minimum 0.8"]
    [PyVal.str "out.stl"] [] 0 false rfl rfl rfl (by decide)).1

/-- C2: when pre-validation and the format gate pass, a known destination
is configured with a triangle-count limit, and the written mesh exceeds
it, `export_stl` deletes the just-written file and raises
`ValidationError`: the target file does not exist afterwards (whatever its
prior state), the writer was invoked with the original arguments, and the
`missing_ok` deletion never fails even on an absent file. -/
theorem export_stl_rollback (A : ℚ → ℚ) (r : Rules) (o : CadObj)
    (rv : List (String × PyVal)) (limit : PyVal) (triCount : ℕ)
    (fileExists0 : Bool) (args : List PyVal)
    (kwargs : List (String × PyVal)) (s : String)
    (hobj : validate_obj A r o = .ok ())
    (hname : resolveFileName false args kwargs = some (PyVal.str s))
    (hfmt : validate_file_format r (some (PyVal.str s)) = .ok ())
    (hrv : ruleVals r = .ok rv)
    (hlim : pyGet rv "maximum_file_triangle_count" = some limit)
    (hover : pyGt (PyVal.int triCount) limit = .ok true) :
    export_stl A r o triCount fileExists0 args kwargs
      = (⟨.error (PyErr.valErr ("Triangle count " ++ natRepr triCount
            ++ " exceeds maximum " ++ pyStr limit)),
          some (args, kwargs)⟩, false)
    ∧ (∀ b, pathUnlink true b = .ok false) := by
  constructor
  · have hchk : check_triangle_count r triCount
        = .error (PyErr.valErr ("Triangle count " ++ natRepr triCount
            ++ " exceeds maximum " ++ pyStr limit)) := by
      simp only [check_triangle_count, hrv, hlim, hover]
    simp [export_stl, hobj, hname, hfmt, hchk, pathUnlink]
  · intro b; cases b <;> rfl

/-- Rules limiting mesh exports to 100 triangles. -/
def rulesTri : Rules :=
  [("rules", PyVal.dict [("maximum_file_triangle_count", PyVal.int 100)])]

/-- C2 witness: a 1280-triangle mesh against a 100-triangle budget is
written, deleted again and reported. -/
theorem export_stl_rollback_witness :
    (export_stl (fun q => q) rulesTri {} 1280 false
        [PyVal.str "sphere.stl"] []
      = (⟨.error (PyErr.valErr "Triangle count 1280 exceeds maximum 100"),
          some ([PyVal.str "sphere.stl"], [])⟩, false))
    ∧ (∀ b, pathUnlink true b = .ok false) :=
  export_stl_rollback (fun q => q) rulesTri {}
    [("maximum_file_triangle_count", PyVal.int 100)] (PyVal.int 100) 1280
    false [PyVal.str "sphere.stl"] [] "sphere.stl" rfl rfl rfl rfl rfl rfl

/-- A shape whose validity probe raises, with an (empty) model attached. -/
def objValidRaises : CadObj :=
  { printabilityModel := some [], isValid := some (.error ()) }

/-- Rules making manifold geometry mandatory. -/
def rulesManifold : Rules :=
  [("rules", PyVal.dict [("manifold_geometry_required", PyVal.bool true)])]

/-- C5 counterexample: a raising `isValid()` probe is recovered but
treated as non-manifold, and with `manifold_geometry_required` configured
the export validation fails on that basis alone — the probe failure blocks
the export instead of degrading to "measurement unavailable". -/
theorem manifold_probe_failure_blocks_cex :
    is_manifold objValidRaises = false
    ∧ validate_obj (fun q => q) rulesManifold objValidRaises
      = .error (PyErr.valErr "Non-manifold geometry detected") :=
  ⟨rfl, rfl⟩

/-- C5 amended: geometry-probe exceptions are recovered locally
(`is_manifold` always returns a boolean, never propagates), but a raising
`isValid` or `isClosed` call is treated pessimistically as non-manifold,
and when the evaluator passes and `manifold_geometry_required` is
configured this blocks the export with "Non-manifold geometry detected". -/
theorem manifold_probe_failure_amended :
    (∀ o : CadObj, o.isValid = some (.error ()) → is_manifold o = false)
    ∧ (∀ o : CadObj,
        (o.isValid = Option.none ∨ o.isValid = some (.ok true)) →
        o.isClosed = some (.error ()) → is_manifold o = false)
    ∧ (∀ (A : ℚ → ℚ) (r : Rules) (o : CadObj) (m : Model)
        (rv : List (String × PyVal)),
        o.printabilityModel = some m → ruleVals r = .ok rv →
        validate (combinedModel rv o m) r = .ok [] →
        pyTruthyOpt (pyGet rv "manifold_geometry_required") = true →
        is_manifold o = false →
        validate_obj A r o
          = .error (PyErr.valErr "Non-manifold geometry detected")) := by
  refine ⟨?_, ?_, ?_⟩
  · intro o h
    simp [is_manifold, h]
  · intro o h1 h2
    rcases h1 with h1 | h1 <;> simp [is_manifold, h1, h2]
  · intro A r o m rv hm hrv hv hflag hnm
    simp [validate_obj, hm, hrv, hv, hflag, hnm]

/-- A shape whose closed-solid probe raises, with an (empty) model. -/
def objClosedRaises : CadObj :=
  { printabilityModel := some [], isClosed := some (.error ()) }

/-- C5 witness: a raising `isClosed()` probe reports non-manifold and, with
the manifold rule configured, blocks the export. -/
theorem manifold_probe_failure_amended_witness :
    is_manifold objClosedRaises = false
    ∧ validate_obj (fun q => q) rulesManifold objClosedRaises
      = .error (PyErr.valErr "Non-manifold geometry detected") :=
  ⟨manifold_probe_failure_amended.2.1 objClosedRaises (Or.inl rfl) rfl,
   manifold_probe_failure_amended.2.2 (fun q => q) rulesManifold
     objClosedRaises [] [("manifold_geometry_required", PyVal.bool true)]
     rfl rfl rfl rfl
     (manifold_probe_failure_amended.2.1 objClosedRaises (Or.inl rfl) rfl)⟩

/-- Rules that allow only STL destinations. -/
def rulesStlOnly : Rules :=
  [("rules", PyVal.dict [("preferred_file_format", PyVal.str "stl")])]

/-- C7 counterexample: with no model attached, `export` still runs the
file-format gate, which rejects a `.step` destination under an STL-only
allow-list: the call raises and the underlying writer is never invoked,
so "no model ⇒ always delegates, regardless of RuleSet content" fails. -/
theorem passthrough_format_gate_cex :
    ({} : CadObj).printabilityModel = Option.none
    ∧ export' (fun q => q) rulesStlOnly {} [PyVal.str "part.step"] []
      = ⟨.error (PyErr.valErr "File format STEP is not supported"),
         Option.none⟩ :=
  ⟨rfl, rfl⟩

/-- With no attached model, `_validate_obj` does nothing. -/
theorem validate_obj_no_model (A : ℚ → ℚ) (r : Rules) (o : CadObj)
    (hm : o.printabilityModel = Option.none) :
    validate_obj A r o = .ok () := by
  simp [validate_obj, hm]

/-- C7 amended: with no model attached, no model validation is performed,
and every export variant delegates to the underlying writer forwarding
all positional and keyword arguments unchanged — provided the (model-
independent) file-format gate accepts the destination; a configured
allow-list that rejects the destination's extension still blocks the
call. -/
theorem no_model_delegates_amended (A : ℚ → ℚ) (r : Rules) (o : CadObj)
    (args : List PyVal) (kwargs : List (String × PyVal)) (triCount : ℕ)
    (fileExists0 : Bool)
    (hm : o.printabilityModel = Option.none)
    (hf2 : validate_file_format r (resolveFileName true args kwargs)
      = .ok ())
    (hf1 : validate_file_format r (resolveFileName false args kwargs)
      = .ok ()) :
    export' A r o args kwargs = ⟨.ok (), some (args, kwargs)⟩
    ∧ cq_export A r o args kwargs = ⟨.ok (), some (args, kwargs)⟩
    ∧ export_step A r o args kwargs = ⟨.ok (), some (args, kwargs)⟩
    ∧ export_bin A r o args kwargs = ⟨.ok (), some (args, kwargs)⟩
    ∧ export_brep A r o args kwargs = ⟨.ok (), some (args, kwargs)⟩
    ∧ assembly_export A r o args kwargs = ⟨.ok (), some (args, kwargs)⟩
    ∧ assembly_save A r o args kwargs = ⟨.ok (), some (args, kwargs)⟩
    ∧ (export_stl A r o triCount fileExists0 args kwargs).1.delegated
        = some (args, kwargs) := by
  have hobj := validate_obj_no_model A r o hm
  refine ⟨?_, ?_, ?_, ?_, ?_, ?_, ?_, ?_⟩
  · simp [export', exportWrap, hobj, hf2]
  · simp [cq_export, exportWrap, hobj, hf2]
  · simp [export_step, exportWrap, hobj, hf1]
  · simp [export_bin, exportWrap, hobj, hf1]
  · simp [export_brep, exportWrap, hobj, hf1]
  · simp [assembly_export, exportWrap, hobj, hf1]
  · simp [assembly_save, exportWrap, hobj, hf1]
  · simp only [export_stl, hobj, hf1]
    cases hfn : resolveFileName false args kwargs with
    | none => simp [hfn]
    | some v =>
      cases hc : check_triangle_count r triCount with
      | ok u => simp [hfn, hc]
      | error e => cases e <;> simp [hfn, hc, pathUnlink]

/-- C7 witness: with no model attached and no rules configured, `export`
delegates and forwards the arguments unchanged. -/
theorem no_model_delegates_amended_witness :
    export' (fun q => q) [] {} [PyVal.str "part.stl"] []
      = ⟨.ok (), some ([PyVal.str "part.stl"], [])⟩ :=
  (no_model_delegates_amended (fun q => q) [] {} [PyVal.str "part.stl"] []
    0 false rfl rfl rfl).1
